import Mathlib

/-!
Verification development for the CoverletterMe repository
(`CoverletterMe.py`, `helperfunctions.py`).

The program resolves five input categories (resume, reference cover
letter, job description, remarks, and the API credential) against a
pickle-backed cache, composes a fixed prompt template from the four
content values, and sends it to a generation service.

Shallow embedding:
* a pickle file holds one Python value, here always either a string or
  Python `None`; we model a pickled value as `PVal := Option String`
  (`none` is Python `None`).
* the cache directory is `Store := String → Option PVal`: `none` means
  the `.pkl` file does not exist, `some v` means the file exists and
  unpickles to `v`.
* GUI collaborators are passed in as explicit arguments: a file-chooser
  result is a `String` (`""` means cancelled, matching Python
  truthiness of the path), a text-entry result is an `Option String`
  (`none` is a dismissed dialog), a yes/no box is a `Bool`, and docx
  text extraction is a function `String → String` on the chosen path.
* each Python function returns its value together with the store after
  its side effects.
-/

namespace CoverletterMe

/-- A pickled Python value: `none` is Python `None`, `some s` a `str`. -/
abbrev PVal := Option String

/-- The cache directory: maps a file stem (e.g. `"Cover_letter"`) to the
pickled value it holds, or `none` when no such `.pkl` file exists. -/
abbrev Store := String → Option PVal

/-- A run started in a directory with no `.pkl` files. -/
def emptyStore : Store := fun _ => none

/-- Python `filename.replace(" ", "_")`: the file stem under which a
category named `filename` is persisted (the pattern is the single
character `" "`, so the replacement is a character map). -/
def recordKey (filename : String) : String :=
  String.mk (filename.data.map (fun c => if c = ' ' then '_' else c))

/-- `pickle.dump(v, open(filename.replace(" ", "_") + ".pkl", "wb"))`:
overwrite the category's record with `v`. -/
def putStore (store : Store) (filename : String) (v : PVal) : Store :=
  fun k => if k = recordKey filename then some v else store k

/-- Python truthiness of an optional string: `None` and `""` are falsy. -/
def truthy : Option String → Bool
  | none => false
  | some s => !s.isEmpty

/-- `get_cached_file(filename)`: unpickle
`filename.replace(" ", "_") + ".pkl"`, or return `None` when the file
does not exist (`FileNotFoundError`). A stored Python `None` and a
missing file are indistinguishable to the caller. -/
def get_cached_file (store : Store) (filename : String) : PVal :=
  match store (recordKey filename) with
  | some v => v
  | none => none

/-- `select_docx_file(filename)`: `filePath` is the file-chooser result
(`""` when the user cancels), `extract` the docx text extraction. On a
chosen path the extracted text is pickled and returned; otherwise the
previously cached value is returned and nothing is written. -/
def select_docx_file (extract : String → String) (store : Store)
    (filename : String) (filePath : String) : PVal × Store :=
  if filePath ≠ "" then
    let docx_string := extract filePath
    (some docx_string, putStore store filename (some docx_string))
  else
    (get_cached_file store filename, store)

/-- `enter_docx_file(filename)`: `entered` is the text-entry result
(`none` when the dialog is dismissed). A truthy entry is pickled and
returned; otherwise the previously cached value is returned and nothing
is written. -/
def enter_docx_file (store : Store) (filename : String)
    (entered : Option String) : PVal × Store :=
  if truthy entered then
    (entered, putStore store filename entered)
  else
    (get_cached_file store filename, store)

/-- `get_api_key()`: if `get_cached_file("API_key")` is `None`, ask for
the key and pickle the dialog result unconditionally — even when the
dialog was cancelled and returned `None`; otherwise return the cached
key without any prompt. -/
def get_api_key (store : Store) (entered : Option String) : PVal × Store :=
  match get_cached_file store "API_key" with
  | some k => (some k, store)
  | none => (entered, putStore store "API_key" entered)

/-- `get_resume()`: `answer` is the yes/no box result for
"Do you want to use the existing resume?". -/
def get_resume (extract : String → String) (store : Store)
    (answer : Bool) (filePath : String) : PVal × Store :=
  match get_cached_file store "Resume" with
  | some r =>
    if answer then (some r, store)
    else select_docx_file extract store "Resume" filePath
  | none => select_docx_file extract store "Resume" filePath

/-- `get_coverletter()`: reads the cache under `"Cover Letter"` but
acquires new input under `"Cover letter"` (as in the source). -/
def get_coverletter (extract : String → String) (store : Store)
    (answer : Bool) (filePath : String) : PVal × Store :=
  match get_cached_file store "Cover Letter" with
  | some c =>
    if answer then (some c, store)
    else select_docx_file extract store "Cover letter" filePath
  | none => select_docx_file extract store "Cover letter" filePath

/-- `get_job_description()`: free-text acquisition under
`"Job description"`. -/
def get_job_description (store : Store) (answer : Bool)
    (entered : Option String) : PVal × Store :=
  match get_cached_file store "Job description" with
  | some d =>
    if answer then (some d, store)
    else enter_docx_file store "Job description" entered
  | none => enter_docx_file store "Job description" entered

/-- `get_remarks()`: free-text acquisition under `"Additional prompt"`;
`answer` is the yes/no box result for "Do you want to change existing
additional prompt?" (the code keeps the cached value when it is true). -/
def get_remarks (store : Store) (answer : Bool)
    (entered : Option String) : PVal × Store :=
  match get_cached_file store "Additional prompt" with
  | some m =>
    if answer then (some m, store)
    else enter_docx_file store "Additional prompt" entered
  | none => enter_docx_file store "Additional prompt" entered

/-- Python f-string interpolation `str(v)`: `None` prints as `"None"`. -/
def pyStr : PVal → String
  | none => "None"
  | some s => s

/-- Fixed template text before the job description slot. -/
def tpl1 : String :=
  "\n    Perform the following actions: \n    1 - Summarize the requirements for the following job     description delimited by triple backticks.\n    Job description: ```"

/-- Fixed template text between the job description and resume slots. -/
def tpl2 : String :=
  "```\n\n    2 - Extract skills and experience relevant to the job     description from the resume delimited by triple backticks,     extract skills and experiences from the job description.\n    Resume: ```"

/-- Fixed template text between the resume and reference cover letter
slots. -/
def tpl3 : String :=
  "```\n\n    3 - Summarize relevant information from the following     coverletter deliminated by triple backticks.\n    Reference coverletter: ```"

/-- Fixed template text between the reference cover letter and remarks
slots. -/
def tpl4 : String :=
  "```\n\n    4 - Output a coverletter for the summarized job description in a     professional and conversational tone. Format your response to be     consistent with the reference cover letter.\n\n    The is intended for hiring manager, so it should focus on matching     qualifications from the summarized resume and the cover letter to the     job description provided. \n\n    Qualification should be presented using the \"show, don\x27t tell\" technique. \n        \n    Try to establish a relationship between my experiences and the job. \n\n    Keep in mind that "

/-- Fixed template text after the remarks slot. -/
def tpl5 : String := ".\n    "

/-- The f-string of `get_prompt`, as a function of the four interpolated
strings. -/
def promptTemplate (description resume reference_coverletter remarks : String) : String :=
  tpl1 ++ description ++ tpl2 ++ resume ++ tpl3 ++ reference_coverletter ++ tpl4 ++ remarks ++ tpl5

/-- `get_prompt()`: resolve the four content categories in source order
(resume, reference cover letter, job description, remarks), threading
the cache, then interpolate the f-string. The GUI answers for the four
resolutions are passed explicitly. -/
def get_prompt (extract : String → String) (store : Store)
    (ansR : Bool) (pathR : String) (ansC : Bool) (pathC : String)
    (ansD : Bool) (textD : Option String) (ansM : Bool) (textM : Option String) :
    String × Store :=
  let r := get_resume extract store ansR pathR
  let c := get_coverletter extract r.2 ansC pathC
  let d := get_job_description c.2 ansD textD
  let m := get_remarks d.2 ansM textM
  (promptTemplate (pyStr d.1) (pyStr r.1) (pyStr c.1) (pyStr m.1), m.2)

/-- Modelled from the spec for comparison (refinement claim C3): the
`resolve(category, acquisition_mode)` decision tree of section 4.2,
instantiated with the free-text acquisition mode, where `acquire_new`
is the free-text acquisition `enter_docx_file`. -/
def resolve_free_text_spec (store : Store) (category : String)
    (reuse : Bool) (entered : Option String) : PVal × Store :=
  match get_cached_file store category with
  | none => enter_docx_file store category entered
  | some cached =>
    if reuse then (some cached, store)
    else enter_docx_file store category entered

/-- Store used to witness statements that need all four content
categories cached. -/
def fullStore : Store :=
  putStore (putStore (putStore (putStore emptyStore
    "Resume" (some "R")) "Cover Letter" (some "C"))
    "Job description" (some "D")) "Additional prompt" (some "M")

/-- Writing under `filename` leaves every other key unchanged. -/
theorem putStore_ne (store : Store) (filename : String) (v : PVal)
    (k : String) (h : k ≠ recordKey filename) :
    putStore store filename v k = store k := by
  simp [putStore, h]

/-- `select_docx_file` touches no key other than its own record key. -/
theorem select_docx_file_frame (extract : String → String) (store : Store)
    (filename path k : String) (h : k ≠ recordKey filename) :
    (select_docx_file extract store filename path).2 k = store k := by
  unfold select_docx_file
  split
  · exact putStore_ne store filename _ k h
  · rfl

/-- `enter_docx_file` touches no key other than its own record key. -/
theorem enter_docx_file_frame (store : Store) (filename : String)
    (entered : Option String) (k : String) (h : k ≠ recordKey filename) :
    (enter_docx_file store filename entered).2 k = store k := by
  unfold enter_docx_file
  split
  · exact putStore_ne store filename _ k h
  · rfl

/-- C1: cache population fails for the reference cover letter category.
Starting from an empty cache, a successful new-input acquisition in
`get_coverletter` returns the extracted text `"X"` and persists it —
but under key `"Cover_letter"` (from the acquisition name
`"Cover letter"`), while the category is read back under
`"Cover Letter"`, i.e. key `"Cover_Letter"`; so a subsequent get for
the category still returns nothing. -/
theorem c1_coverletter_population_fails :
    (get_coverletter (fun _ => "X") emptyStore true "f.docx").1 = some "X" ∧
    (get_coverletter (fun _ => "X") emptyStore true "f.docx").2
      (recordKey "Cover letter") = some (some "X") ∧
    get_cached_file
      (get_coverletter (fun _ => "X") emptyStore true "f.docx").2
      "Cover Letter" = none := by
  decide

/-- C2 counterexample: a cancelled credential prompt in `get_api_key`
does write to the store — starting from an empty cache, after the
dialog is dismissed (`none`) the record `"API_key"` exists (holding
Python `None`), whereas it did not exist before. -/
theorem c2_cancelled_credential_writes :
    (get_api_key emptyStore none).2 "API_key" = some none ∧
    emptyStore "API_key" = none := by
  decide

/-- C2 amended: for the document-select and free-text acquisitions of
the four content categories a declined or cancelled prompt returns the
value cached before the attempt and performs no store write; the
credential is the exception: with no cached key, a cancelled prompt in
`get_api_key` returns `none` but still writes a `None` record under
`"API_key"`. -/
theorem c2_fallback_no_write (extract : String → String) (store : Store)
    (filename : String) (entered : Option String)
    (h : truthy entered = false) :
    select_docx_file extract store filename "" =
      (get_cached_file store filename, store) ∧
    enter_docx_file store filename entered =
      (get_cached_file store filename, store) ∧
    (get_cached_file store "API_key" = none →
      get_api_key store none = (none, putStore store "API_key" none)) := by
  refine ⟨?_, ?_, ?_⟩
  · simp [select_docx_file]
  · simp [enter_docx_file, h]
  · intro hk
    simp [get_api_key, hk]

/-- C2 witness: the amended fallback property at a concrete input. -/
theorem c2_fallback_no_write_witness :
    select_docx_file (fun _ => "") emptyStore "Resume" "" =
      (get_cached_file emptyStore "Resume", emptyStore) ∧
    enter_docx_file emptyStore "Resume" none =
      (get_cached_file emptyStore "Resume", emptyStore) ∧
    (get_cached_file emptyStore "API_key" = none →
      get_api_key emptyStore none =
        (none, putStore emptyStore "API_key" none)) :=
  c2_fallback_no_write (fun _ => "") emptyStore "Resume" none (by decide)

/-- C3 counterexample: with a cached credential `"K"`, the reuse answer
"no" and the fresh entry `"NEW"`, the spec's resolve tree returns the
new value, but `get_api_key` returns the cached one — it never asks the
reuse question. -/
theorem c3_api_key_not_resolve_tree :
    (resolve_free_text_spec (putStore emptyStore "API_key" (some "K"))
      "API_key" false (some "NEW")).1 = some "NEW" ∧
    (get_api_key (putStore emptyStore "API_key" (some "K"))
      (some "NEW")).1 = some "K" := by
  decide

/-- C3 amended: `get_api_key` deviates from the shared decision tree —
a cached credential is reused unconditionally, with no reuse question
(its result does not depend on any prompt answer); only when no
credential is cached is the user prompted, and then the dialog result
(even `None`) is persisted unconditionally. -/
theorem c3_api_key_decision (store : Store) (entered : Option String) :
    (∀ k, get_cached_file store "API_key" = some k →
      get_api_key store entered = (some k, store)) ∧
    (get_cached_file store "API_key" = none →
      get_api_key store entered =
        (entered, putStore store "API_key" entered)) := by
  constructor
  · intro k hk
    simp [get_api_key, hk]
  · intro hk
    simp [get_api_key, hk]

/-- C3 witness: the amended credential behaviour at a concrete input. -/
theorem c3_api_key_decision_witness :
    get_api_key (putStore emptyStore "API_key" (some "K")) (some "NEW") =
      (some "K", putStore emptyStore "API_key" (some "K")) :=
  (c3_api_key_decision (putStore emptyStore "API_key" (some "K"))
    (some "NEW")).1 "K" (by decide)

/-- C4: at the moment the request is composed in `get_prompt`, each of
the four fields is a string: whatever the cache and the user answers,
the composed prompt is the fixed template applied to four strings; and
when nothing is cached and every prompt is cancelled, every slot
collapses to the placeholder string `"None"` (the f-string rendering of
Python `None`), never a missing field. -/
theorem c4_request_fields_are_strings (extract : String → String)
    (store : Store) (ansR : Bool) (pathR : String) (ansC : Bool)
    (pathC : String) (ansD : Bool) (textD : Option String) (ansM : Bool)
    (textM : Option String) :
    (∃ a b c d : String,
      (get_prompt extract store ansR pathR ansC pathC
        ansD textD ansM textM).1 = promptTemplate a b c d) ∧
    (get_prompt extract emptyStore ansR "" ansC "" ansD none
      ansM none).1 = promptTemplate "None" "None" "None" "None" := by
  constructor
  · exact ⟨_, _, _, _, rfl⟩
  · rfl

/-- C5: for a category with no cached value, a cancelled file chooser
or a non-truthy text entry makes the acquisition return the empty value
(`none`) and leave the store untouched, in both acquisition modes. -/
theorem c5_empty_state_resolution (extract : String → String)
    (store : Store) (filename : String) (entered : Option String)
    (hcache : get_cached_file store filename = none)
    (hent : truthy entered = false) :
    select_docx_file extract store filename "" = (none, store) ∧
    enter_docx_file store filename entered = (none, store) := by
  constructor
  · simp [select_docx_file, hcache]
  · simp [enter_docx_file, hent, hcache]

/-- C5 witness: empty-state resolution at a concrete input. -/
theorem c5_empty_state_resolution_witness :
    select_docx_file (fun _ => "") emptyStore "Resume" "" =
      (none, emptyStore) ∧
    enter_docx_file emptyStore "Resume" none = (none, emptyStore) :=
  c5_empty_state_resolution (fun _ => "") emptyStore "Resume" none
    (by decide) (by decide)

/-- C6: for each of the four content categories, when a cached value
exists and the yes/no collaborator returns `true`, the resolver returns
exactly the cached value and the store is unchanged (no put). -/
theorem c6_reuse_idempotent (extract : String → String) (store : Store)
    (path : String) (entered : Option String) :
    (∀ v, get_cached_file store "Resume" = some v →
      get_resume extract store true path = (some v, store)) ∧
    (∀ v, get_cached_file store "Cover Letter" = some v →
      get_coverletter extract store true path = (some v, store)) ∧
    (∀ v, get_cached_file store "Job description" = some v →
      get_job_description store true entered = (some v, store)) ∧
    (∀ v, get_cached_file store "Additional prompt" = some v →
      get_remarks store true entered = (some v, store)) := by
  refine ⟨?_, ?_, ?_, ?_⟩ <;> intro v hv
  · simp [get_resume, hv]
  · simp [get_coverletter, hv]
  · simp [get_job_description, hv]
  · simp [get_remarks, hv]

/-- C6 witness: reuse idempotence at a concrete fully cached store. -/
theorem c6_reuse_idempotent_witness :
    get_resume (fun _ => "") fullStore true "" = (some "R", fullStore) ∧
    get_coverletter (fun _ => "") fullStore true "" =
      (some "C", fullStore) ∧
    get_job_description fullStore true none = (some "D", fullStore) ∧
    get_remarks fullStore true none = (some "M", fullStore) :=
  ⟨(c6_reuse_idempotent (fun _ => "") fullStore "" none).1 "R" (by decide),
   (c6_reuse_idempotent (fun _ => "") fullStore "" none).2.1 "C" (by decide),
   (c6_reuse_idempotent (fun _ => "") fullStore "" none).2.2.1 "D" (by decide),
   (c6_reuse_idempotent (fun _ => "") fullStore "" none).2.2.2 "M" (by decide)⟩

/-- `get_resume` touches no key other than `"Resume"`. -/
theorem get_resume_frame (extract : String → String) (store : Store)
    (answer : Bool) (path k : String) (h : k ≠ recordKey "Resume") :
    (get_resume extract store answer path).2 k = store k := by
  unfold get_resume
  cases hc : get_cached_file store "Resume" with
  | none => exact select_docx_file_frame extract store "Resume" path k h
  | some r =>
    cases answer with
    | false => exact select_docx_file_frame extract store "Resume" path k h
    | true => rfl

/-- `get_coverletter` touches no key other than `"Cover_letter"` (its
write key; its read key `"Cover_Letter"` is only read). -/
theorem get_coverletter_frame (extract : String → String) (store : Store)
    (answer : Bool) (path k : String) (h : k ≠ recordKey "Cover letter") :
    (get_coverletter extract store answer path).2 k = store k := by
  unfold get_coverletter
  cases hc : get_cached_file store "Cover Letter" with
  | none => exact select_docx_file_frame extract store "Cover letter" path k h
  | some c =>
    cases answer with
    | false => exact select_docx_file_frame extract store "Cover letter" path k h
    | true => rfl

/-- `get_job_description` touches no key other than `"Job_description"`. -/
theorem get_job_description_frame (store : Store) (answer : Bool)
    (entered : Option String) (k : String)
    (h : k ≠ recordKey "Job description") :
    (get_job_description store answer entered).2 k = store k := by
  unfold get_job_description
  cases hc : get_cached_file store "Job description" with
  | none => exact enter_docx_file_frame store "Job description" entered k h
  | some d =>
    cases answer with
    | false => exact enter_docx_file_frame store "Job description" entered k h
    | true => rfl

/-- `get_remarks` touches no key other than `"Additional_prompt"`. -/
theorem get_remarks_frame (store : Store) (answer : Bool)
    (entered : Option String) (k : String)
    (h : k ≠ recordKey "Additional prompt") :
    (get_remarks store answer entered).2 k = store k := by
  unfold get_remarks
  cases hc : get_cached_file store "Additional prompt" with
  | none => exact enter_docx_file_frame store "Additional prompt" entered k h
  | some m =>
    cases answer with
    | false => exact enter_docx_file_frame store "Additional prompt" entered k h
    | true => rfl

/-- `get_api_key` touches no key other than `"API_key"`. -/
theorem get_api_key_frame (store : Store) (entered : Option String)
    (k : String) (h : k ≠ recordKey "API_key") :
    (get_api_key store entered).2 k = store k := by
  unfold get_api_key
  cases hc : get_cached_file store "API_key" with
  | none => exact putStore_ne store "API_key" entered k h
  | some v => rfl

/-- The value produced by `select_docx_file` depends only on the
record at its own key. -/
theorem select_docx_file_value_congr (extract : String → String)
    (s1 s2 : Store) (filename path : String)
    (h : s1 (recordKey filename) = s2 (recordKey filename)) :
    (select_docx_file extract s1 filename path).1 =
      (select_docx_file extract s2 filename path).1 := by
  unfold select_docx_file
  split
  · rfl
  · unfold get_cached_file
    rw [h]

/-- The value produced by `enter_docx_file` depends only on the record
at its own key. -/
theorem enter_docx_file_value_congr (s1 s2 : Store) (filename : String)
    (entered : Option String)
    (h : s1 (recordKey filename) = s2 (recordKey filename)) :
    (enter_docx_file s1 filename entered).1 =
      (enter_docx_file s2 filename entered).1 := by
  unfold enter_docx_file
  split
  · rfl
  · unfold get_cached_file
    rw [h]

/-- The resume resolved by `get_resume` depends only on the record at
key `"Resume"`. -/
theorem get_resume_value_congr (extract : String → String) (s1 s2 : Store)
    (answer : Bool) (path : String)
    (h : s1 (recordKey "Resume") = s2 (recordKey "Resume")) :
    (get_resume extract s1 answer path).1 =
      (get_resume extract s2 answer path).1 := by
  have hc : get_cached_file s1 "Resume" = get_cached_file s2 "Resume" := by
    unfold get_cached_file
    rw [h]
  unfold get_resume
  rw [hc]
  cases hcv : get_cached_file s2 "Resume" with
  | none => exact select_docx_file_value_congr extract s1 s2 "Resume" path h
  | some r =>
    cases answer with
    | false => exact select_docx_file_value_congr extract s1 s2 "Resume" path h
    | true => rfl

/-- The cover letter resolved by `get_coverletter` depends only on the
records at its two keys, `"Cover_Letter"` (read) and `"Cover_letter"`
(fallback read inside the acquisition). -/
theorem get_coverletter_value_congr (extract : String → String)
    (s1 s2 : Store) (answer : Bool) (path : String)
    (h1 : s1 (recordKey "Cover Letter") = s2 (recordKey "Cover Letter"))
    (h2 : s1 (recordKey "Cover letter") = s2 (recordKey "Cover letter")) :
    (get_coverletter extract s1 answer path).1 =
      (get_coverletter extract s2 answer path).1 := by
  have hc : get_cached_file s1 "Cover Letter" = get_cached_file s2 "Cover Letter" := by
    unfold get_cached_file
    rw [h1]
  unfold get_coverletter
  rw [hc]
  cases hcv : get_cached_file s2 "Cover Letter" with
  | none => exact select_docx_file_value_congr extract s1 s2 "Cover letter" path h2
  | some c =>
    cases answer with
    | false => exact select_docx_file_value_congr extract s1 s2 "Cover letter" path h2
    | true => rfl

/-- The description resolved by `get_job_description` depends only on
the record at key `"Job_description"`. -/
theorem get_job_description_value_congr (s1 s2 : Store) (answer : Bool)
    (entered : Option String)
    (h : s1 (recordKey "Job description") = s2 (recordKey "Job description")) :
    (get_job_description s1 answer entered).1 =
      (get_job_description s2 answer entered).1 := by
  have hc : get_cached_file s1 "Job description" = get_cached_file s2 "Job description" := by
    unfold get_cached_file
    rw [h]
  unfold get_job_description
  rw [hc]
  cases hcv : get_cached_file s2 "Job description" with
  | none => exact enter_docx_file_value_congr s1 s2 "Job description" entered h
  | some d =>
    cases answer with
    | false => exact enter_docx_file_value_congr s1 s2 "Job description" entered h
    | true => rfl

/-- The remarks resolved by `get_remarks` depend only on the record at
key `"Additional_prompt"`. -/
theorem get_remarks_value_congr (s1 s2 : Store) (answer : Bool)
    (entered : Option String)
    (h : s1 (recordKey "Additional prompt") = s2 (recordKey "Additional prompt")) :
    (get_remarks s1 answer entered).1 =
      (get_remarks s2 answer entered).1 := by
  have hc : get_cached_file s1 "Additional prompt" = get_cached_file s2 "Additional prompt" := by
    unfold get_cached_file
    rw [h]
  unfold get_remarks
  rw [hc]
  cases hcv : get_cached_file s2 "Additional prompt" with
  | none => exact enter_docx_file_value_congr s1 s2 "Additional prompt" entered h
  | some m =>
    cases answer with
    | false => exact enter_docx_file_value_congr s1 s2 "Additional prompt" entered h
    | true => rfl

/-- The key resolved by `get_api_key` depends only on the record at key
`"API_key"`. -/
theorem get_api_key_value_congr (s1 s2 : Store) (entered : Option String)
    (h : s1 (recordKey "API_key") = s2 (recordKey "API_key")) :
    (get_api_key s1 entered).1 = (get_api_key s2 entered).1 := by
  have hc : get_cached_file s1 "API_key" = get_cached_file s2 "API_key" := by
    unfold get_cached_file
    rw [h]
  unfold get_api_key
  rw [hc]
  cases hcv : get_cached_file s2 "API_key" with
  | none => rfl
  | some v => rfl

/-- C7 counterexample: the cover letter resolver does not write its own
category's record. On a successful acquisition it creates a record
under key `recordKey "Cover letter" = "Cover_letter"`, which differs
from the cover letter category's record key
`recordKey "Cover Letter" = "Cover_Letter"` (the key it reads). -/
theorem c7_coverletter_writes_other_key :
    recordKey "Cover letter" ≠ recordKey "Cover Letter" ∧
    (get_coverletter (fun _ => "X") emptyStore true "f.docx").2
      (recordKey "Cover letter") = some (some "X") ∧
    emptyStore (recordKey "Cover letter") = none := by
  decide

/-- C7 amended: pairwise independence holds — each resolver changes the
store at most at the single key it writes, and the value each resolver
returns depends only on the record(s) at its own key(s); hence
resolving one category (with or without cancellation) leaves every
other category's records and resolution outcome unchanged. The one
deviation from the claim is that the cover letter resolver involves two
distinct keys, reading `"Cover_Letter"` but writing `"Cover_letter"`,
neither of which belongs to another category. -/
theorem c7_independence (extract : String → String) (store : Store)
    (answer : Bool) (path : String) (entered : Option String) :
    ((∀ k, k ≠ recordKey "Resume" →
        (get_resume extract store answer path).2 k = store k) ∧
     (∀ k, k ≠ recordKey "Cover letter" →
        (get_coverletter extract store answer path).2 k = store k) ∧
     (∀ k, k ≠ recordKey "Job description" →
        (get_job_description store answer entered).2 k = store k) ∧
     (∀ k, k ≠ recordKey "Additional prompt" →
        (get_remarks store answer entered).2 k = store k) ∧
     (∀ k, k ≠ recordKey "API_key" →
        (get_api_key store entered).2 k = store k)) ∧
    ((∀ s2 : Store, store (recordKey "Resume") = s2 (recordKey "Resume") →
        (get_resume extract store answer path).1 =
          (get_resume extract s2 answer path).1) ∧
     (∀ s2 : Store,
        store (recordKey "Cover Letter") = s2 (recordKey "Cover Letter") →
        store (recordKey "Cover letter") = s2 (recordKey "Cover letter") →
        (get_coverletter extract store answer path).1 =
          (get_coverletter extract s2 answer path).1) ∧
     (∀ s2 : Store,
        store (recordKey "Job description") = s2 (recordKey "Job description") →
        (get_job_description store answer entered).1 =
          (get_job_description s2 answer entered).1) ∧
     (∀ s2 : Store,
        store (recordKey "Additional prompt") = s2 (recordKey "Additional prompt") →
        (get_remarks store answer entered).1 =
          (get_remarks s2 answer entered).1) ∧
     (∀ s2 : Store, store (recordKey "API_key") = s2 (recordKey "API_key") →
        (get_api_key store entered).1 = (get_api_key s2 entered).1)) :=
  ⟨⟨fun k hk => get_resume_frame extract store answer path k hk,
    fun k hk => get_coverletter_frame extract store answer path k hk,
    fun k hk => get_job_description_frame store answer entered k hk,
    fun k hk => get_remarks_frame store answer entered k hk,
    fun k hk => get_api_key_frame store entered k hk⟩,
   ⟨fun s2 h => get_resume_value_congr extract store s2 answer path h,
    fun s2 h1 h2 => get_coverletter_value_congr extract store s2 answer path h1 h2,
    fun s2 h => get_job_description_value_congr store s2 answer entered h,
    fun s2 h => get_remarks_value_congr store s2 answer entered h,
    fun s2 h => get_api_key_value_congr store s2 entered h⟩⟩

/-- C7 witness: resolving the cover letter with a successful
acquisition leaves the resume record untouched. -/
theorem c7_independence_witness :
    (get_coverletter (fun _ => "X") emptyStore false "f.docx").2
      (recordKey "Resume") = emptyStore (recordKey "Resume") :=
  (c7_independence (fun _ => "X") emptyStore false "f.docx" none).1.2.1
    (recordKey "Resume") (by decide)

/-- C8: for any run, the composed prompt is exactly the five fixed
template segments `tpl1 … tpl5` interleaved with the four resolved
strings in their designated slots — job description, resume, reference
cover letter (each closed by the triple backticks beginning the next
segment), and the remarks inside the closing instruction. Nothing else
in the prompt depends on any input. -/
theorem c8_prompt_is_fixed_template (extract : String → String)
    (store : Store) (ansR : Bool) (pathR : String) (ansC : Bool)
    (pathC : String) (ansD : Bool) (textD : Option String) (ansM : Bool)
    (textM : Option String) :
    (get_prompt extract store ansR pathR ansC pathC ansD textD
      ansM textM).1 =
      tpl1 ++
      pyStr (get_job_description
        (get_coverletter extract (get_resume extract store ansR pathR).2
          ansC pathC).2 ansD textD).1 ++
      tpl2 ++ pyStr (get_resume extract store ansR pathR).1 ++
      tpl3 ++
      pyStr (get_coverletter extract
        (get_resume extract store ansR pathR).2 ansC pathC).1 ++
      tpl4 ++
      pyStr (get_remarks
        (get_job_description
          (get_coverletter extract (get_resume extract store ansR pathR).2
            ansC pathC).2 ansD textD).2 ansM textM).1 ++
      tpl5 := rfl

/-- C9: asymmetry of the two acquisition modes on empty content — once
a file path is chosen, `select_docx_file` persists and returns the
extracted text whatever it is (the guard tests the path, so even `""`
is persisted), while `enter_docx_file` never persists an empty
submitted string and instead falls back to the cached value with no
write. -/
theorem c9_acquisition_asymmetry (extract : String → String)
    (store : Store) (filename path : String) (h : path ≠ "") :
    select_docx_file extract store filename path =
      (some (extract path),
        putStore store filename (some (extract path))) ∧
    enter_docx_file store filename (some "") =
      (get_cached_file store filename, store) := by
  constructor
  · simp [select_docx_file, h]
  · rfl

/-- C9 witness: with an extractor returning the empty string, the
chosen file's empty text is still persisted, while an empty text entry
is not. -/
theorem c9_acquisition_asymmetry_witness :
    select_docx_file (fun _ => "") emptyStore "Resume" "f.docx" =
      (some "", putStore emptyStore "Resume" (some "")) ∧
    enter_docx_file emptyStore "Resume" (some "") =
      (get_cached_file emptyStore "Resume", emptyStore) :=
  c9_acquisition_asymmetry (fun _ => "") emptyStore "Resume" "f.docx"
    (by decide)

/-- C10: after a cancelled credential prompt on a store with no usable
key, the `"API_key"` record exists and holds Python `None`; a later
`get_cached_file "API_key"` nevertheless returns `None`, which
`get_api_key` treats exactly like a missing record, so the next run
prompts again and persists the newly entered key instead of reusing the
stored `None`. -/
theorem c10_cached_none_behaves_absent (store : Store)
    (entered : Option String)
    (h : get_cached_file store "API_key" = none) :
    (get_api_key store none).2 (recordKey "API_key") = some none ∧
    get_cached_file (get_api_key store none).2 "API_key" = none ∧
    get_api_key (get_api_key store none).2 entered =
      (entered, putStore (get_api_key store none).2 "API_key" entered) := by
  have hstep : get_api_key store none = (none, putStore store "API_key" none) := by
    simp [get_api_key, h]
  have h1 : (get_api_key store none).2 (recordKey "API_key") = some none := by
    rw [hstep]
    simp [putStore]
  have h2 : get_cached_file (get_api_key store none).2 "API_key" = none := by
    unfold get_cached_file
    rw [h1]
  refine ⟨h1, h2, ?_⟩
  generalize hG : (get_api_key store none).2 = s1 at h2 ⊢
  unfold get_api_key
  rw [h2]

/-- C10 witness: the cached-`None` behaviour at a concrete input. -/
theorem c10_cached_none_behaves_absent_witness :
    (get_api_key emptyStore none).2 (recordKey "API_key") = some none ∧
    get_cached_file (get_api_key emptyStore none).2 "API_key" = none ∧
    get_api_key (get_api_key emptyStore none).2 (some "K") =
      (some "K",
        putStore (get_api_key emptyStore none).2 "API_key" (some "K")) :=
  c10_cached_none_behaves_absent emptyStore (some "K") (by decide)

end CoverletterMe
